import Mathlib

/-!
Shallow embedding of the cron-claude repository (TypeScript) for checking its
natural-language specification.

Conventions of the embedding:
* Node's `crypto.createHmac('sha256', key).update(c).digest('hex')` is an
  external library; it is modelled as an abstract parameter
  `hmac : String → String → String` (key, content ↦ hex digest).
* The `gray-matter` library (YAML frontmatter serialisation) is external; a
  persisted log document is modelled structurally as a `MatterDoc` (frontmatter
  data plus content body), with `matter.stringify` / `matter` being the
  structural identity on that pair.
* Effects (file system, subprocess, network, PowerShell) are modelled by
  passing the outcome of each external interaction as an explicit parameter and
  recording the effects the code performs in the returned structure.
* JavaScript `s.split(c)` for a one-character separator, `s.trim()`,
  `parseInt`, and `padStart(2, '0')` are given executable models below.
-/

set_option maxRecDepth 20000

namespace CronClaude

/-- `src/types.ts`: notification settings of a task. -/
structure Notifications where
  toast : Bool
deriving Repr, DecidableEq

/-- `src/types.ts`: `TaskDefinition`. `invocation` is kept as a string because
the executor compares it against the literals `'cli'` and `'api'`. -/
structure TaskDefinition where
  id : String
  schedule : String
  invocation : String
  notifications : Notifications
  enabled : Bool
  instructions : String
deriving Repr, DecidableEq

/-- `src/types.ts`: one step of an execution log. -/
structure LogStep where
  timestamp : String
  action : String
  output : Option String := none
  error : Option String := none
deriving Repr, DecidableEq

/-- `src/types.ts`: the `status` field of a `TaskLog`. -/
inductive LogStatus
  | running
  | success
  | failure
deriving Repr, DecidableEq

/-- Rendering of a `LogStatus` as the string stored in the document. -/
def LogStatus.render : LogStatus → String
  | .running => "running"
  | .success => "success"
  | .failure => "failure"

/-- `src/types.ts`: `TaskLog`. -/
structure TaskLog where
  taskId : String
  executionId : String
  timestamp : String
  status : LogStatus
  steps : List LogStep
  signature : Option String := none
deriving Repr, DecidableEq

/-- `src/types.ts`: `ExecutionResult` as returned by the two invocation
backends (the `steps` field aliases the log's steps in the source). -/
structure ExecutionResult where
  success : Bool
  output : String
  error : Option String := none
deriving Repr, DecidableEq

/-- Frontmatter of a persisted log document, as assembled by `formatTaskLog`
(`src/logger.ts`). -/
structure LogFrontmatter where
  category : String
  taskId : String
  executionId : String
  timestamp : String
  status : String
  signature : Option String
deriving Repr, DecidableEq

/-- A gray-matter document: frontmatter data plus markdown content body.
`matter.stringify(content, data)` and `matter(markdown)` are modelled as the
structural identity between this pair and the serialised file. -/
structure MatterDoc where
  data : LogFrontmatter
  content : String
deriving Repr, DecidableEq

/-! ## Logger (`src/logger.ts`) -/

/-- `signContent(content, secretKey)`: HMAC-SHA256 hex digest of `content`
under `key`; the digest function itself is the abstract parameter `hmac`. -/
def signContent (hmac : String → String → String) (content key : String) : String :=
  hmac key content

/-- `verifySignature(content, signature, secretKey)`: recompute the digest and
compare to the stored signature. -/
def verifySignature (hmac : String → String → String)
    (content signature key : String) : Bool :=
  signature == signContent hmac content key

/-- Rendering of one step inside `formatTaskLog`'s template
(`src/logger.ts` lines 49–52). -/
def renderStep (idx : Nat) (step : LogStep) : String :=
  "### Step " ++ toString (idx + 1) ++ ": " ++ step.action ++
  "\n**Time:** " ++ step.timestamp ++ "\n" ++
  (match step.output with
   | some o => "\n**Output:**\n```\n" ++ o ++ "\n```\n"
   | none => "") ++
  "\n" ++
  (match step.error with
   | some e => "\n**Error:**\n```\n" ++ e ++ "\n```\n"
   | none => "")

/-- The markdown body built by `formatTaskLog` (`src/logger.ts` lines 39–59),
before the frontmatter is attached. -/
def renderLogContent (log : TaskLog) : String :=
  "# Task Execution Log: " ++ log.taskId ++
  "\n\n**Execution ID:** " ++ log.executionId ++
  "\n**Status:** " ++ log.status.render ++
  "\n**Started:** " ++ log.timestamp ++
  "\n\n## Execution Steps\n\n" ++
  String.intercalate "\n\n" (log.steps.enum.map fun p => renderStep p.1 p.2) ++
  "\n\n## Summary\nTotal steps: " ++ toString log.steps.length ++
  "\nStatus: " ++ log.status.render ++ "\n"

/-- `formatTaskLog(log)`: render the body, sign it, and attach the frontmatter
(including the signature) via `matter.stringify`. -/
def formatTaskLog (hmac : String → String → String) (key : String)
    (log : TaskLog) : MatterDoc :=
  let content := renderLogContent log
  let signature := signContent hmac content key
  { data := { category := "cron-task"
              taskId := log.taskId
              executionId := log.executionId
              timestamp := log.timestamp
              status := log.status.render
              signature := some signature }
    content := content }

/-- Result of `verifyLogFile`. -/
structure VerifyResult where
  valid : Bool
  log : Option TaskLog := none
  error : Option String := none
deriving Repr, DecidableEq

/-- `verifyLogFile(markdown)`: parse the persisted document, extract the
signature from the frontmatter, and verify the content body verbatim against
it.  The source's `if (!signature)` treats a missing or empty signature as
absent (JavaScript falsiness). -/
def verifyLogFile (hmac : String → String → String) (key : String)
    (doc : MatterDoc) : VerifyResult :=
  let check (signature : String) : VerifyResult :=
    if verifySignature hmac doc.content signature key then
      { valid := true
        log := some { taskId := doc.data.taskId
                      executionId := doc.data.executionId
                      timestamp := doc.data.timestamp
                      status := if doc.data.status == "success" then .success
                                else if doc.data.status == "failure" then .failure
                                else .running
                      steps := []
                      signature := some signature } }
    else
      { valid := false, error := some "Signature verification failed" }
  match doc.data.signature with
  | none => { valid := false, error := some "No signature found in log file" }
  | some signature =>
      if signature == "" then
        { valid := false, error := some "No signature found in log file" }
      else
        check signature

/-- `createLog(taskId)`: fresh running log.  The wall-clock derived
`executionId` and ISO timestamp are passed in as parameters. -/
def createLog (ts execId taskId : String) : TaskLog :=
  { taskId := taskId
    executionId := execId
    timestamp := ts
    status := .running
    steps := []
    signature := none }

/-- `addLogStep(log, action, output?, error?)`: append one step.  The step's
wall-clock timestamp is passed in as `ts`. -/
def addLogStep (ts : String) (log : TaskLog) (action : String)
    (output error : Option String) : TaskLog :=
  { log with steps := log.steps ++ [{ timestamp := ts, action := action
                                      output := output, error := error }] }

/-- `finalizeLog(log, success)` composed with `saveLogToMemory`: set the
terminal status and produce the signed document that gets persisted.  (The
source persists via the memory skill with a local-file fallback; persistence
itself is modelled as always succeeding.) -/
def finalizeLog (hmac : String → String → String) (key : String)
    (log : TaskLog) (success : Bool) : TaskLog × MatterDoc :=
  let log' := { log with status := if success then .success else .failure }
  (log', formatTaskLog hmac key log')

/-! ## JavaScript string primitives used by the source -/

/-- JavaScript `s.split(sep)` for a one-character separator: split on every
occurrence, keeping empty pieces. -/
def splitChar (sep : Char) : List Char → List (List Char)
  | [] => [[]]
  | c :: cs =>
      if c = sep then [] :: splitChar sep cs
      else
        match splitChar sep cs with
        | [] => [[c]]
        | g :: gs => (c :: g) :: gs

/-- JavaScript `s.split(sep)` on strings, one-character separator. -/
def jsSplit (sep : Char) (s : String) : List String :=
  (splitChar sep s.data).map String.mk

/-- JavaScript `s.trim()`: strip whitespace from both ends. -/
def jsTrim (s : String) : String :=
  String.mk (((s.data.dropWhile Char.isWhitespace).reverse.dropWhile
      Char.isWhitespace).reverse)

/-- Value of a list of decimal digit characters. -/
def digitsVal (cs : List Char) : Nat :=
  cs.foldl (fun acc c => acc * 10 + (c.toNat - '0'.toNat)) 0

/-- JavaScript `parseInt(s)` restricted to the non-negative case: skip leading
whitespace, read leading decimal digits, `none` for `NaN`.  (Cron fields that
reach `parseInt` in the source never carry a sign.) -/
def jsParseInt (s : String) : Option Nat :=
  let cs := (s.data.dropWhile Char.isWhitespace).takeWhile Char.isDigit
  if cs.isEmpty then none else some (digitsVal cs)

/-- JavaScript `n.toString().padStart(2, '0')` applied to a `parseInt` result:
`NaN` renders as the string `"NaN"`. -/
def padStart2 (v : Option Nat) : String :=
  match v with
  | none => "NaN"
  | some n =>
      let s := toString n
      if s.length ≥ 2 then s else "0" ++ s

/-- JavaScript substring containment (`String.prototype.includes`). -/
def jsIncludes (s pat : String) : Bool :=
  decide (pat.data <:+: s.data)

/-! ## Cron translation (`src/scheduler.ts`, `parseCronExpression`) -/

/-- The `type` field of a `ScheduleTrigger`. -/
inductive ScheduleType
  | daily
  | weekly
  | monthly
  | once
  | startup
deriving Repr, DecidableEq

/-- `src/scheduler.ts`: `ScheduleTrigger`. -/
structure ScheduleTrigger where
  type : ScheduleType
  time : Option String := none
  days : Option (List String) := none
  interval : Option Nat := none
deriving Repr, DecidableEq

/-- The weekday lookup table of `parseCronExpression` (`dayMap`). -/
def dayMap (d : String) : Option String :=
  if d = "0" then some "SUN"
  else if d = "1" then some "MON"
  else if d = "2" then some "TUE"
  else if d = "3" then some "WED"
  else if d = "4" then some "THU"
  else if d = "5" then some "FRI"
  else if d = "6" then some "SAT"
  else if d = "7" then some "SUN"
  else none

/-- `parseCronExpression(cronExpr)`.  `node-cron`'s `cron.validate` is an
external library, modelled as the abstract parameter `validate`; a `false`
answer throws `Invalid cron expression`.  The rest is the source's own logic:
split into five fields, derive `time` from concrete minute/hour, classify as
weekly when the day-of-week field is not `*` (mapping each comma-separated
token through `dayMap` with fallback `'MON'`), else monthly when the
day-of-month field is not `*`, else daily. -/
def parseCronExpression (validate : String → Bool) (cronExpr : String) :
    Except String ScheduleTrigger :=
  if !(validate cronExpr) then
    .error ("Invalid cron expression: " ++ cronExpr)
  else
    match jsSplit ' ' cronExpr with
    | [minute, hour, dayOfMonth, _month, dayOfWeek] =>
        let time :=
          if hour ≠ "*" ∧ minute ≠ "*" then
            padStart2 (jsParseInt hour) ++ ":" ++ padStart2 (jsParseInt minute)
          else
            "00:00"
        if dayOfWeek ≠ "*" then
          .ok { type := .weekly
                time := some time
                days := some ((jsSplit ',' dayOfWeek).map fun d =>
                  (dayMap (jsTrim d)).getD "MON") }
        else if dayOfMonth ≠ "*" then
          .ok { type := .monthly, time := some time }
        else
          .ok { type := .daily, time := some time }
    | _ => .error ("Invalid cron expression format: " ++ cronExpr)

/-! ## Native scheduler command generation (`src/scheduler.ts`) -/

/-- JavaScript `x || d` on an optional string (empty string is falsy). -/
def jsOrStr (v : Option String) (d : String) : String :=
  match v with
  | none => d
  | some s => if s = "" then d else s

/-- The `triggerXml` string built (and then never used) inside
`generateTaskSchedulerCommand`. -/
def generateTriggerXml (trigger : ScheduleTrigger) : String :=
  if trigger.type = .daily then
    "\n      <CalendarTrigger>\n        <StartBoundary>2026-01-01T" ++
    (trigger.time.getD "") ++ ":00</StartBoundary>\n        <Enabled>true</Enabled>\n        <ScheduleByDay>\n          <DaysInterval>1</DaysInterval>\n        </ScheduleByDay>\n      </CalendarTrigger>"
  else if trigger.type = .weekly ∧ trigger.days.isSome then
    "\n      <CalendarTrigger>\n        <StartBoundary>2026-01-01T" ++
    (trigger.time.getD "") ++ ":00</StartBoundary>\n        <Enabled>true</Enabled>\n        <ScheduleByWeek>\n          <WeeksInterval>1</WeeksInterval>\n          <DaysOfWeek>\n            " ++
    String.intercalate "\n            "
      ((trigger.days.getD []).map fun day => "<" ++ day ++ " />") ++
    "\n          </DaysOfWeek>\n        </ScheduleByWeek>\n      </CalendarTrigger>"
  else if trigger.type = .monthly then
    "\n      <CalendarTrigger>\n        <StartBoundary>2026-01-01T" ++
    (trigger.time.getD "") ++ ":00</StartBoundary>\n        <Enabled>true</Enabled>\n        <ScheduleByMonth>\n          <DaysOfMonth>\n            <Day>1</Day>\n          </DaysOfMonth>\n          <Months>\n            <January /><February /><March /><April /><May /><June />\n            <July /><August /><September /><October /><November /><December />\n          </Months>\n        </ScheduleByMonth>\n      </CalendarTrigger>"
  else
    ""

/-- The PowerShell script returned by `generateTaskSchedulerCommand` (the
trimmed `psScript` template).  `executorPath` and `absoluteTaskPath` stand for
the results of Node's `path.resolve`, which is external. -/
def generateTaskSchedulerCommand (taskId executorPath absoluteTaskPath : String)
    (trigger : ScheduleTrigger) : String :=
  "$taskName = \"CronClaude_" ++ taskId ++ "\"\n" ++
  "$action = New-ScheduledTaskAction -Execute \"node\" -Argument '\"" ++
    executorPath ++ "\" \"" ++ absoluteTaskPath ++ "\"'\n" ++
  "$trigger = New-ScheduledTaskTrigger -Daily -At \"" ++
    jsOrStr trigger.time "00:00" ++ "\"\n" ++
  "$settings = New-ScheduledTaskSettingsSet -AllowStartIfOnBatteries -DontStopIfGoingOnBatteries -StartWhenAvailable\n" ++
  "$principal = New-ScheduledTaskPrincipal -UserId \"$env:USERNAME\" -LogonType S4U\n\n" ++
  "Register-ScheduledTask -TaskName $taskName -Action $action -Trigger $trigger -Settings $settings -Principal $principal -Force\n" ++
  "Write-Host \"Task registered: $taskName\""

/-- The PowerShell registration script built inside `registerTask`
(`src/scheduler.ts`, the `psScript` template of the registration flow),
trimmed.  `executorArgs` stands for the already-assembled argument string
(executor path, task path, optionally the detected CLI tool path). -/
def registerPsScript (taskId executorArgs : String)
    (trigger : ScheduleTrigger) : String :=
  "$ErrorActionPreference = 'Stop'\n" ++
  "$action = New-ScheduledTaskAction -Execute \"node\" -Argument '" ++
    executorArgs ++ "'\n" ++
  "$trigger = New-ScheduledTaskTrigger -Daily -At \"" ++
    jsOrStr trigger.time "00:00" ++ "\"\n" ++
  "$settings = New-ScheduledTaskSettingsSet -AllowStartIfOnBatteries -DontStopIfGoingOnBatteries -StartWhenAvailable\n" ++
  "$principal = New-ScheduledTaskPrincipal -UserId $env:USERNAME -LogonType S4U\n" ++
  "Register-ScheduledTask -TaskName \"CronClaude_" ++ taskId ++
    "\" -Action $action -Trigger $trigger -Settings $settings -Principal $principal -Force\n" ++
  "Write-Host \"Task registered successfully\""

/-! ## Registration flow (`src/scheduler.ts`, `registerTask`) -/

/-- The permission-denied signature match of `registerTask`: the combined
error text (message plus stderr) is searched for the known substrings. -/
def isAccessDenied (errorText : String) : Bool :=
  jsIncludes errorText "Access is denied" ||
  jsIncludes errorText "0x80070005" ||
  jsIncludes errorText "PermissionDenied"

/-- Outcomes of the external interactions `registerTask` performs:
`directError` is the error text of the direct `execSync` registration attempt
(`none` = it succeeded), `elevatedError` the outcome of the elevated
`Start-Process … -Wait` run, and `verifyOutput` the stdout of the
post-elevation `Get-ScheduledTask` query. -/
structure RegEnv where
  directError : Option String
  elevatedError : Option String
  verifyOutput : String
deriving Repr, DecidableEq

deriving instance DecidableEq for Except

/-- What a `registerTask` call did and produced: how many times the elevation
fallback ran, whether the temporary elevation script was created and removed,
and the outcome (`Except.error` = the exception thrown to the caller). -/
structure RegResult where
  elevationAttempts : Nat
  tempScriptCreated : Bool
  tempScriptRemoved : Bool
  outcome : Except String Unit
deriving Repr, DecidableEq

/-- `registerTask(taskId, …)`: try direct registration; on a permission-denied
failure run the elevation fallback once (serialize the script to a temp file,
relaunch elevated, wait, then re-query the scheduler and succeed only if the
task exists under the expected name); propagate any other error unmodified.
The outer try/catch logs and rethrows the same error. -/
def registerTask (taskId : String) (env : RegEnv) : RegResult :=
  match env.directError with
  | none => { elevationAttempts := 0, tempScriptCreated := false
              tempScriptRemoved := false, outcome := .ok () }
  | some errorText =>
      if isAccessDenied errorText then
        match env.elevatedError with
        | some e =>
            { elevationAttempts := 1, tempScriptCreated := true
              tempScriptRemoved := true, outcome := .error e }
        | none =>
            if jsTrim env.verifyOutput == "CronClaude_" ++ taskId then
              { elevationAttempts := 1, tempScriptCreated := true
                tempScriptRemoved := true, outcome := .ok () }
            else
              { elevationAttempts := 1, tempScriptCreated := true
                tempScriptRemoved := true
                outcome := .error "Task registration was cancelled or failed" }
      else
        { elevationAttempts := 0, tempScriptCreated := false
          tempScriptRemoved := false, outcome := .error errorText }

/-! ## Configuration and secret key (`src/config.ts`) -/

/-- `src/types.ts`: `Config` (the storage-aware variant used by the current
`config.ts`). -/
structure Config where
  secretKey : String
  version : String
  storageType : String
  tasksDir : String
  storagePreferenceSet : Bool
deriving Repr, DecidableEq

/-- The persisted `config.json` as written/read by `loadConfig`; fields other
than `secretKey` may be absent in older files (the backward-compatibility
merge). -/
structure StoredConfig where
  secretKey : String
  version : Option String := none
  storageType : Option String := none
  tasksDir : Option String := none
  storagePreferenceSet : Option Bool := none
deriving Repr, DecidableEq

/-- Lowercase hex digit. -/
def hexDigit (n : Nat) : Char :=
  if n < 10 then Char.ofNat ('0'.toNat + n) else Char.ofNat ('a'.toNat + (n - 10))

/-- Node `randomBytes(n).toString('hex')`: two lowercase hex digits per byte. -/
def hexEncode (bytes : List (Fin 256)) : String :=
  String.mk (bytes.foldr
    (fun b acc => hexDigit (b.val / 16) :: hexDigit (b.val % 16) :: acc) [])

/-- `loadConfig()`: if `config.json` exists, parse it and merge with defaults;
otherwise generate a fresh secret key (`randomBytes(32)` is modelled by the
`rand` parameter), write the new config, and return it.  The state is the
content of `config.json` (`none` = not existing); `cwdTasks` stands for
`join(process.cwd(), 'tasks')`. -/
def loadConfig (rand : List (Fin 256)) (cwdTasks : String)
    (state : Option StoredConfig) : Config × Option StoredConfig :=
  match state with
  | some stored =>
      ({ secretKey := stored.secretKey
         version := jsOrStr stored.version "0.1.0"
         storageType := jsOrStr stored.storageType "auto"
         tasksDir := jsOrStr stored.tasksDir cwdTasks
         storagePreferenceSet := stored.storagePreferenceSet.getD false },
       state)
  | none =>
      let config : Config :=
        { secretKey := hexEncode rand
          version := "0.1.0"
          storageType := "auto"
          tasksDir := cwdTasks
          storagePreferenceSet := false }
      (config,
       some { secretKey := config.secretKey
              version := some config.version
              storageType := some config.storageType
              tasksDir := some config.tasksDir
              storagePreferenceSet := some config.storagePreferenceSet })

/-- `getSecretKey()`: load (or create) the config and return its key. -/
def getSecretKey (rand : List (Fin 256)) (cwdTasks : String)
    (state : Option StoredConfig) : String × Option StoredConfig :=
  let (config, state') := loadConfig rand cwdTasks state
  (config.secretKey, state')

/-! ## Task parsing and execution (`src/executor.ts`) -/

/-- A YAML frontmatter value as far as the executor's defaulting logic
distinguishes them: a boolean, a string, or anything else. -/
inductive YamlVal
  | bool (b : Bool)
  | str (s : String)
  | other
deriving Repr, DecidableEq

/-- The frontmatter of a task markdown file as delivered by `gray-matter`;
`none` = field absent. -/
structure TaskFrontmatter where
  id : Option String := none
  schedule : Option String := none
  invocation : Option String := none
  notifications : Option Notifications := none
  enabled : Option YamlVal := none
deriving Repr, DecidableEq

/-- A task markdown file after `gray-matter` parsing: frontmatter data plus
the markdown body (`parsed.content`). -/
structure TaskFile where
  data : TaskFrontmatter
  content : String
deriving Repr, DecidableEq

/-- `parseTaskDefinition(filePath)`: read the file and parse, substituting
defaults for absent (or falsy) fields; `enabled` is true unless the
frontmatter value is literally `false` (`parsed.data.enabled !== false`).
The argument is the outcome of `readFileSync` plus parsing (`Except.error` =
the thrown exception's message), which this function does not catch. -/
def parseTaskDefinition (file : Except String TaskFile) :
    Except String TaskDefinition :=
  file.map fun f =>
    { id := jsOrStr f.data.id "unknown"
      schedule := jsOrStr f.data.schedule "0 0 * * *"
      invocation := jsOrStr f.data.invocation "cli"
      notifications := f.data.notifications.getD { toast := false }
      enabled := f.data.enabled != some (YamlVal.bool false)
      instructions := f.content }

/-- How the CLI subprocess run turns out: the process closes with an exit
code, the 5-minute timeout fires first, the spawn fails (`error` event), or
the setup (`writeFileSync` of the temp instructions file) throws. -/
inductive CliOutcome
  | exits (code : Int)
  | timesOut
  | spawnError (msg : String)
  | setupError (msg : String)
deriving Repr, DecidableEq

/-- What `executeViaCLI` did and produced.  `tempRemovedBeforeResult` records
whether the temporary instructions file had been unlinked by the time the
promise resolved with the `ExecutionResult` (the source unlinks only inside
the `close` handler, which on the timeout path runs — if at all — after the
resolve). -/
structure CliRun where
  result : ExecutionResult
  log : TaskLog
  tempFileCreated : Bool
  tempRemovedBeforeResult : Bool
  spawned : Bool
deriving Repr, DecidableEq

/-- `executeViaCLI(task, log, claudeCodePath)`: write the instructions to a
temporary file, spawn the CLI tool, race it against the 5-minute timeout, and
resolve with an `ExecutionResult`; every failure is converted into a failed
result (the promise never rejects). -/
def executeViaCLI (ts claudeCommand tempFile : String) (log : TaskLog)
    (outcome : CliOutcome) : CliRun :=
  let log := addLogStep ts log "Starting interactive Claude session" none none
  match outcome with
  | .setupError msg =>
      let log := addLogStep ts log "Execution setup failed" none (some msg)
      { result := { success := false, output := "", error := some msg }
        log := log, tempFileCreated := false
        tempRemovedBeforeResult := false, spawned := false }
  | .spawnError msg =>
      let log := addLogStep ts log "Created temporary task file" (some tempFile) none
      let log := addLogStep ts log "Launching Claude CLI (visible window)"
        (some ("Using: " ++ claudeCommand)) none
      let log := addLogStep ts log "Failed to launch Claude" none (some msg)
      { result := { success := false, output := "", error := some msg }
        log := log, tempFileCreated := true
        tempRemovedBeforeResult := false, spawned := false }
  | .timesOut =>
      let log := addLogStep ts log "Created temporary task file" (some tempFile) none
      let log := addLogStep ts log "Launching Claude CLI (visible window)"
        (some ("Using: " ++ claudeCommand)) none
      let log := addLogStep ts log "Execution timeout"
        (some "Task exceeded 5 minute limit") none
      { result := { success := false, output := ""
                    error := some "Execution timeout after 5 minutes" }
        log := log, tempFileCreated := true
        tempRemovedBeforeResult := false, spawned := true }
  | .exits code =>
      let log := addLogStep ts log "Created temporary task file" (some tempFile) none
      let log := addLogStep ts log "Launching Claude CLI (visible window)"
        (some ("Using: " ++ claudeCommand)) none
      let log := addLogStep ts log "Cleaned up temporary file" none none
      if code = 0 then
        let log := addLogStep ts log "Claude session completed successfully"
          (some ("Exit code: " ++ toString code)) none
        { result := { success := true
                      output := "Interactive session completed (see Claude window for details)" }
          log := log, tempFileCreated := true
          tempRemovedBeforeResult := true, spawned := true }
      else
        let log := addLogStep ts log "Claude session exited with error"
          (some ("Exit code: " ++ toString code)) none
        { result := { success := false, output := ""
                      error := some ("Claude exited with code " ++ toString code) }
          log := log, tempFileCreated := true
          tempRemovedBeforeResult := true, spawned := true }

/-- How the API request turns out: `ok` with the extracted output text (the
first content block, or the stringified JSON), a non-success HTTP status with
its body text, or `fetch` itself throwing. -/
inductive ApiOutcome
  | ok (output : String)
  | httpError (status : Nat) (body : String)
  | fetchError (msg : String)
deriving Repr, DecidableEq

/-- What `executeViaAPI` did and produced; `networkCalls` counts issued
`fetch` requests. -/
structure ApiRun where
  result : ExecutionResult
  log : TaskLog
  networkCalls : Nat
deriving Repr, DecidableEq

/-- `executeViaAPI(task, log)`: require `ANTHROPIC_API_KEY` from the
environment (fail before any request if absent), issue one request, and
convert every thrown error into a failed result. -/
def executeViaAPI (ts : String) (log : TaskLog) (apiKey : Option String)
    (outcome : ApiOutcome) : ApiRun :=
  let log := addLogStep ts log "Starting API execution" none none
  match apiKey with
  | none =>
      let msg := "ANTHROPIC_API_KEY environment variable not set"
      let log := addLogStep ts log "API execution failed" none (some msg)
      { result := { success := false, output := "", error := some msg }
        log := log, networkCalls := 0 }
  | some _ =>
      let log := addLogStep ts log "API key found, making request" none none
      match outcome with
      | .ok output =>
          let log := addLogStep ts log "API request completed" (some output) none
          { result := { success := true, output := output }
            log := log, networkCalls := 1 }
      | .httpError status body =>
          let msg := "API request failed: " ++ toString status ++ " " ++ body
          let log := addLogStep ts log "API execution failed" none (some msg)
          { result := { success := false, output := "", error := some msg }
            log := log, networkCalls := 1 }
      | .fetchError msg =>
          let log := addLogStep ts log "API execution failed" none (some msg)
          { result := { success := false, output := "", error := some msg }
            log := log, networkCalls := 1 }

/-- What one `executeTask` call did: `thrown` is an exception escaping the
function (`none` = returned normally), `finalLog` the finalized log,
`persisted` the signed documents handed to persistence, plus whether a CLI
subprocess was spawned and how many network requests went out.  (The optional
toast notification is fire-and-forget with its errors caught and cannot
affect any of these fields.) -/
structure TaskRun where
  thrown : Option String
  finalLog : Option TaskLog
  persisted : List MatterDoc
  spawnedCli : Bool
  networkCalls : Nat
deriving Repr, DecidableEq

/-- `executeTask(taskFilePath, claudeCodePath)`: parse the task definition
(outside any try/catch), create the log, skip-and-fail if disabled, dispatch
on the invocation method, and finalize the log.  Note the parse step: a
failure there escapes as `thrown`. -/
def executeTask (hmac : String → String → String)
    (key ts execId tempFile claudeCommand : String)
    (file : Except String TaskFile) (cliOutcome : CliOutcome)
    (apiKey : Option String) (apiOutcome : ApiOutcome) : TaskRun :=
  match parseTaskDefinition file with
  | .error e =>
      { thrown := some e, finalLog := none, persisted := []
        spawnedCli := false, networkCalls := 0 }
  | .ok task =>
      let log := createLog ts execId task.id
      let log := addLogStep ts log "Task execution started"
        (some ("Task: " ++ task.id ++ ", Method: " ++ task.invocation)) none
      if !task.enabled then
        let log := addLogStep ts log "Task skipped - disabled" none none
        let (log', doc) := finalizeLog hmac key log false
        { thrown := none, finalLog := some log', persisted := [doc]
          spawnedCli := false, networkCalls := 0 }
      else if task.invocation == "cli" then
        let run := executeViaCLI ts claudeCommand tempFile log cliOutcome
        let (log', doc) := finalizeLog hmac key run.log run.result.success
        { thrown := none, finalLog := some log', persisted := [doc]
          spawnedCli := run.spawned, networkCalls := 0 }
      else if task.invocation == "api" then
        let run := executeViaAPI ts log apiKey apiOutcome
        let (log', doc) := finalizeLog hmac key run.log run.result.success
        { thrown := none, finalLog := some log', persisted := [doc]
          spawnedCli := false, networkCalls := run.networkCalls }
      else
        let log := addLogStep ts log "Invalid invocation method" none
          (some ("Unknown method: " ++ task.invocation))
        let (log', doc) := finalizeLog hmac key log false
        { thrown := none, finalLog := some log', persisted := [doc]
          spawnedCli := false, networkCalls := 0 }

/-! ## Concrete instantiations used by witnesses and counterexamples -/

/-- A concrete stand-in for the HMAC-SHA256 hex digest, used to instantiate
the abstract `hmac` parameter on concrete inputs: prefixing keeps it injective
in the content and its output nonempty, the two properties of a digest the
theorems assume. -/
def tHmac (key content : String) : String :=
  "hmac-" ++ key ++ "-" ++ content

/-! ## Theorems -/

/-- C1: For every rendered log body and every key, verifying the signature
produced by `signContent` against the same body and key reports valid, and
`verifyLogFile (formatTaskLog log)` reports valid for every finalized log;
a body mutation makes verification report invalid, given that the digest
function is collision-free (the standard idealization of HMAC-SHA256) —
verification recomputes the digest of the persisted body verbatim and
compares it to the stored signature. -/
theorem sign_verify_roundtrip_tamper
    (hmac : String → String → String) (key : String)
    (hne : ∀ c, hmac key c ≠ "")
    (hinj : Function.Injective (hmac key)) :
    (∀ content, verifySignature hmac content (signContent hmac content key) key = true)
    ∧ (∀ log : TaskLog,
        (verifyLogFile hmac key (formatTaskLog hmac key log)).valid = true)
    ∧ (∀ content content', content' ≠ content →
        verifySignature hmac content' (signContent hmac content key) key = false) := by
  refine ⟨?_, ?_, ?_⟩
  · intro content
    simp [verifySignature, signContent]
  · intro log
    have h := hne (renderLogContent log)
    simp [verifyLogFile, formatTaskLog, verifySignature, signContent, h]
  · intro content content' hne'
    have : hmac key content ≠ hmac key content' := fun h => hne' (hinj h).symm
    simp [verifySignature, signContent, this]

/-- Witness for C1 at concrete inputs, with the digest instantiated by the
injective, nonempty-output `tHmac`. -/
theorem sign_verify_roundtrip_tamper_witness :
    verifySignature tHmac "body" (signContent tHmac "body" "k") "k" = true
    ∧ (verifyLogFile tHmac "k"
        (formatTaskLog tHmac "k"
          { taskId := "task1", executionId := "e0", timestamp := "t0"
            status := .success
            steps := [{ timestamp := "t0", action := "Task execution started" }]
          })).valid = true
    ∧ verifySignature tHmac "bodyX" (signContent tHmac "body" "k") "k" = false := by
  have hne : ∀ c, tHmac "k" c ≠ "" := by
    intro c h
    have hd := congrArg String.data h
    simp [tHmac, String.data_append] at hd
  have hinj : Function.Injective (tHmac "k") := by
    intro a b h
    have hd := congrArg String.data h
    simp [tHmac, String.data_append] at hd
    exact String.ext hd
  obtain ⟨h1, h2, h3⟩ := sign_verify_roundtrip_tamper tHmac "k" hne hinj
  exact ⟨h1 "body", h2 _, h3 "body" "bodyX" (by decide)⟩

/-- C2 counterexample: `parseTaskDefinition` runs before — and outside — any
try/catch in `executeTask`, so a task-file read failure escapes `executeTask`
as an exception and no record is finalized or persisted, contrary to the
claim that every error on the execution path is caught and every execution
terminates in exactly one persisted record. -/
theorem executeTask_parse_error_escapes :
    executeTask tHmac "k" "t0" "e0" "tmp" "claude-code"
      (.error "ENOENT: no such file or directory") (.exits 0) none (.ok "out") =
    { thrown := some "ENOENT: no such file or directory", finalLog := none
      persisted := [], spawnedCli := false, networkCalls := 0 } := rfl

/-- C2 (amended): once the task file parses, every execution-path outcome —
disabled skip, CLI exit with any code, timeout, spawn error, setup error, API
success, HTTP error, network error, missing credential, and unknown
invocation method alike — is caught and converted into exactly one finalized,
signed record, and `executeTask` returns without throwing; a failure of
`parseTaskDefinition` itself, however, escapes uncaught with no record. -/
theorem executeTask_after_parse_one_signed_record
    (hmac : String → String → String)
    (key ts execId tempFile claudeCommand : String) (tf : TaskFile)
    (cliOutcome : CliOutcome) (apiKey : Option String)
    (apiOutcome : ApiOutcome) :
    (executeTask hmac key ts execId tempFile claudeCommand (.ok tf)
        cliOutcome apiKey apiOutcome).thrown = none
    ∧ ∃ log doc,
        (executeTask hmac key ts execId tempFile claudeCommand (.ok tf)
            cliOutcome apiKey apiOutcome).finalLog = some log
        ∧ (executeTask hmac key ts execId tempFile claudeCommand (.ok tf)
            cliOutcome apiKey apiOutcome).persisted = [doc]
        ∧ (log.status = .success ∨ log.status = .failure)
        ∧ doc = formatTaskLog hmac key log
        ∧ doc.data.signature =
            some (signContent hmac (renderLogContent log) key) := by
  simp only [executeTask, parseTaskDefinition, Except.map, finalizeLog]
  split
  · refine ⟨rfl, _, _, rfl, rfl, Or.inr rfl, rfl, rfl⟩
  · split
    · rcases hc : (executeViaCLI ts claudeCommand tempFile _ cliOutcome).result.success with _ | _ <;>
        simp [hc] <;> rfl
    · split
      · rcases ha : (executeViaAPI ts _ apiKey apiOutcome).result.success with _ | _ <;>
          simp [ha] <;> rfl
      · refine ⟨rfl, _, _, rfl, rfl, Or.inr rfl, rfl, rfl⟩

/-- C3 counterexample: the day-of-week field is split on commas only, so the
range expression `1-5` arrives as the single token `"1-5"`, misses the lookup
table, and falls back to `'MON'`: translating `"30 8 * * 1-5"` yields
`days = [MON]`, not the claimed `[MON, TUE, WED, THU, FRI]`.  (`node-cron`
accepts this expression, hence `validate` is instantiated to `true`.) -/
theorem parseCron_range_token_falls_back_to_MON :
    parseCronExpression (fun _ => true) "30 8 * * 1-5" =
      .ok { type := .weekly, time := some "08:30", days := some ["MON"] }
    ∧ (["MON"] : List String) ≠ ["MON", "TUE", "WED", "THU", "FRI"] :=
  ⟨rfl, by decide⟩

/-- C3 (amended): for every cron expression whose day-of-week field is not
`*`, `parseCronExpression` classifies the trigger as weekly and maps each
comma-separated token through the weekday table (`0`–`7` numeric tokens, with
`0` and `7` both meaning Sunday); a token not in the table — such as the
range `1-5` — falls back to `MON`, so `"30 8 * * 1-5"` yields
`{type: weekly, time: "08:30", days: [MON]}` while `"0 0 * * 0"` yields
`{type: weekly, time: "00:00", days: [SUN]}`. -/
theorem parseCron_weekly_classification :
    (dayMap "0" = some "SUN" ∧ dayMap "1" = some "MON" ∧ dayMap "2" = some "TUE"
      ∧ dayMap "3" = some "WED" ∧ dayMap "4" = some "THU" ∧ dayMap "5" = some "FRI"
      ∧ dayMap "6" = some "SAT" ∧ dayMap "7" = some "SUN")
    ∧ (∀ (validate : String → Bool) (expr m h dom mon dow : String),
        validate expr = true →
        jsSplit ' ' expr = [m, h, dom, mon, dow] →
        dow ≠ "*" →
        ∃ time, parseCronExpression validate expr =
          .ok { type := .weekly, time := some time
                days := some ((jsSplit ',' dow).map fun d =>
                  (dayMap (jsTrim d)).getD "MON") })
    ∧ parseCronExpression (fun _ => true) "30 8 * * 1-5" =
        .ok { type := .weekly, time := some "08:30", days := some ["MON"] }
    ∧ parseCronExpression (fun _ => true) "0 0 * * 0" =
        .ok { type := .weekly, time := some "00:00", days := some ["SUN"] } := by
  refine ⟨by decide, ?_, rfl, rfl⟩
  intro validate expr m h dom mon dow hv hsplit hdow
  refine ⟨if h ≠ "*" ∧ m ≠ "*" then
            padStart2 (jsParseInt h) ++ ":" ++ padStart2 (jsParseInt m)
          else "00:00", ?_⟩
  simp [parseCronExpression, hv, hsplit, hdow]

/-- Witness for C3's amended theorem: the weekly-classification conjunct
applied to the concrete expression `"0 9 * * 1,3"`. -/
theorem parseCron_weekly_classification_witness :
    ∃ time, parseCronExpression (fun _ => true) "0 9 * * 1,3" =
      .ok { type := .weekly, time := some time
            days := some ((jsSplit ',' "1,3").map fun d =>
              (dayMap (jsTrim d)).getD "MON") } :=
  parseCron_weekly_classification.2.1 (fun _ => true)
    "0 9 * * 1,3" "0" "9" "*" "*" "1,3" rfl (by decide) (by decide)

/-- C4: the unlink of the temporary instructions file lives only inside the
`close` handler of the subprocess, so the guarantee fails: on a spawn error
the promise resolves with the failed result and the temp file has not been
removed, on a timeout the result likewise resolves before any cleanup, and
only the normal-exit path removes the file before producing the result. -/
theorem executeViaCLI_temp_cleanup_gap :
    (executeViaCLI "t0" "claude-code" "/tmp/task.md" (createLog "t0" "e0" "task1")
        (.spawnError "spawn claude-code ENOENT")).tempFileCreated = true
    ∧ (executeViaCLI "t0" "claude-code" "/tmp/task.md" (createLog "t0" "e0" "task1")
        (.spawnError "spawn claude-code ENOENT")).tempRemovedBeforeResult = false
    ∧ (executeViaCLI "t0" "claude-code" "/tmp/task.md" (createLog "t0" "e0" "task1")
        .timesOut).tempRemovedBeforeResult = false
    ∧ (executeViaCLI "t0" "claude-code" "/tmp/task.md" (createLog "t0" "e0" "task1")
        (.exits 0)).tempRemovedBeforeResult = true
    ∧ (executeViaCLI "t0" "claude-code" "/tmp/task.md" (createLog "t0" "e0" "task1")
        (.exits 1)).tempRemovedBeforeResult = true :=
  ⟨rfl, rfl, rfl, rfl, rfl⟩

/-- C5 counterexample: before the enabled check, `executeTask` has already
appended a "Task execution started" step, so a disabled task's finalized log
carries two steps — the start step and the skipped step — not a single
"skipped" step as claimed. -/
theorem disabled_task_log_has_two_steps :
    ((executeTask tHmac "k" "t0" "e0" "tmp" "claude-code"
        (.ok { data := { enabled := some (YamlVal.bool false) }, content := "do it" })
        (.exits 0) none (.ok "out")).finalLog.map
          fun log => log.steps.map fun s => s.action) =
      some ["Task execution started", "Task skipped - disabled"]
    ∧ (["Task execution started", "Task skipped - disabled"] : List String).length ≠ 1 :=
  ⟨rfl, by decide⟩

/-- C5 (amended): every task definition with `enabled = false` finalizes with
status failure, spawns no subprocess, and issues no network call, and its
log's steps are exactly the initial "Task execution started" step followed by
the "Task skipped - disabled" step (two steps, the skipped one last). -/
theorem disabled_task_fails_with_skip_audit
    (hmac : String → String → String)
    (key ts execId tempFile claudeCommand : String)
    (idv schedv invv : Option String) (notifv : Option Notifications)
    (content : String) (cliOutcome : CliOutcome) (apiKey : Option String)
    (apiOutcome : ApiOutcome) :
    (executeTask hmac key ts execId tempFile claudeCommand
        (.ok { data := { id := idv, schedule := schedv, invocation := invv
                         notifications := notifv
                         enabled := some (YamlVal.bool false) }
               content := content })
        cliOutcome apiKey apiOutcome) =
      { thrown := none
        finalLog := some
          { taskId := jsOrStr idv "unknown"
            executionId := execId
            timestamp := ts
            status := .failure
            steps := [{ timestamp := ts, action := "Task execution started"
                        output := some ("Task: " ++ jsOrStr idv "unknown" ++
                          ", Method: " ++ jsOrStr invv "cli") },
                      { timestamp := ts, action := "Task skipped - disabled" }] }
        persisted := [formatTaskLog hmac key
          { taskId := jsOrStr idv "unknown"
            executionId := execId
            timestamp := ts
            status := .failure
            steps := [{ timestamp := ts, action := "Task execution started"
                        output := some ("Task: " ++ jsOrStr idv "unknown" ++
                          ", Method: " ++ jsOrStr invv "cli") },
                      { timestamp := ts, action := "Task skipped - disabled" }] }]
        spawnedCli := false
        networkCalls := 0 } := by
  simp [executeTask, parseTaskDefinition, Except.map, finalizeLog, createLog,
    addLogStep]

/-- C6: in `registerTask`, a direct failure whose error text matches a
permission-denied signature triggers the elevation fallback exactly once
(and the temporary elevation script is cleaned up); success is reported only
when either the direct attempt succeeded or the post-elevation query returned
the expected native task name; a direct failure not matching the signature is
propagated unmodified with no elevation attempt; and a direct success never
elevates. -/
theorem registerTask_elevation_protocol (taskId errText : String) (env : RegEnv) :
    (env.directError = some errText → isAccessDenied errText = true →
      (registerTask taskId env).elevationAttempts = 1
      ∧ (registerTask taskId env).tempScriptCreated = true
      ∧ (registerTask taskId env).tempScriptRemoved = true
      ∧ ((registerTask taskId env).outcome = .ok () ↔
          env.elevatedError = none
          ∧ jsTrim env.verifyOutput = "CronClaude_" ++ taskId))
    ∧ (env.directError = some errText → isAccessDenied errText = false →
        registerTask taskId env =
          { elevationAttempts := 0, tempScriptCreated := false
            tempScriptRemoved := false, outcome := .error errText })
    ∧ ((registerTask taskId env).outcome = .ok () →
        env.directError = none
        ∨ (env.elevatedError = none
           ∧ jsTrim env.verifyOutput = "CronClaude_" ++ taskId))
    ∧ (env.directError = none →
        (registerTask taskId env).elevationAttempts = 0) := by
  obtain ⟨directError, elevatedError, verifyOutput⟩ := env
  refine ⟨?_, ?_, ?_, ?_⟩
  · rintro rfl hd
    cases elevatedError with
    | some e => simp [registerTask, hd]
    | none =>
        by_cases hv : jsTrim verifyOutput = "CronClaude_" ++ taskId <;>
          simp [registerTask, hd, hv]
  · rintro rfl hd
    simp [registerTask, hd]
  · cases directError with
    | none => exact fun _ => Or.inl rfl
    | some e =>
        by_cases hd : isAccessDenied e
        · cases elevatedError with
          | some e' => simp [registerTask, hd]
          | none =>
              by_cases hv : jsTrim verifyOutput = "CronClaude_" ++ taskId <;>
                simp [registerTask, hd, hv]
        · simp [registerTask, hd]
  · rintro rfl
    rfl

/-- Witness for C6 at concrete environments: an "Access is denied" direct
failure with a confirming post-elevation query elevates once and succeeds; a
non-permission failure is propagated unmodified with no elevation. -/
theorem registerTask_elevation_protocol_witness :
    (registerTask "t1"
      { directError := some "Register-ScheduledTask : Access is denied."
        elevatedError := none
        verifyOutput := "CronClaude_t1\n" }).elevationAttempts = 1
    ∧ (registerTask "t1"
        { directError := some "Register-ScheduledTask : Access is denied."
          elevatedError := none
          verifyOutput := "CronClaude_t1\n" }).outcome = .ok ()
    ∧ registerTask "t1"
        { directError := some "The task XML is malformed"
          elevatedError := none, verifyOutput := "" } =
      { elevationAttempts := 0, tempScriptCreated := false
        tempScriptRemoved := false
        outcome := .error "The task XML is malformed" } := by
  have h1 := registerTask_elevation_protocol "t1"
    "Register-ScheduledTask : Access is denied."
    { directError := some "Register-ScheduledTask : Access is denied."
      elevatedError := none, verifyOutput := "CronClaude_t1\n" }
  have h2 := registerTask_elevation_protocol "t1" "The task XML is malformed"
    { directError := some "The task XML is malformed"
      elevatedError := none, verifyOutput := "" }
  obtain ⟨ha, -, -, -⟩ := h1
  obtain ⟨hattempts, -, -, hok⟩ := ha rfl (by decide)
  exact ⟨hattempts, hok.mpr ⟨rfl, by decide⟩, (h2.2.1) rfl (by decide)⟩

/-- C7 counterexample: for the monthly-classified expression `"0 9 15 * *"`
the PowerShell script the registrar actually executes is byte-for-byte the
script of a plain daily trigger — it contains `New-ScheduledTaskTrigger
-Daily` and no monthly clause at all, so the installed native trigger fires
daily rather than being scheduled on calendar day 1 (the day-1 XML is built
in a dead variable that never reaches the executed command). -/
theorem monthly_installed_trigger_is_daily :
    parseCronExpression (fun _ => true) "0 9 15 * *" =
      .ok { type := .monthly, time := some "09:00" }
    ∧ registerPsScript "t1" "\"/x/executor.js\" \"/x/task.md\""
        { type := .monthly, time := some "09:00" } =
      registerPsScript "t1" "\"/x/executor.js\" \"/x/task.md\""
        { type := .daily, time := some "09:00" }
    ∧ jsIncludes (registerPsScript "t1" "\"/x/executor.js\" \"/x/task.md\""
        { type := .monthly, time := some "09:00" })
        "New-ScheduledTaskTrigger -Daily" = true
    ∧ jsIncludes (registerPsScript "t1" "\"/x/executor.js\" \"/x/task.md\""
        { type := .monthly, time := some "09:00" })
        "ScheduleByMonth" = false
    ∧ jsIncludes (generateTaskSchedulerCommand "t1" "/x/executor.js" "/x/task.md"
        { type := .monthly, time := some "09:00" })
        "ScheduleByMonth" = false :=
  ⟨rfl, rfl, by decide, by decide, by decide⟩

/-- An element list that occurs inside `B` also occurs inside `A ++ B`. -/
theorem sub_append_left {α : Type} (A : List α) {p B : List α}
    (h : p <:+: B) : p <:+: A ++ B := by
  obtain ⟨s, t, rfl⟩ := h
  exact ⟨A ++ s, t, by simp⟩

/-- C7 (amended): for monthly-classified expressions the command generator
does build trigger XML pinned to calendar day 1 regardless of the cron
day-of-month (the translator does not even retain that field), but that XML
is dead: the PowerShell actually produced for registration depends only on
the trigger's time, installing the same daily trigger for monthly, weekly and
daily classifications alike. -/
theorem monthly_day_one_xml_unused :
    (∀ t : Option String,
      jsIncludes (generateTriggerXml { type := .monthly, time := t })
        "<Day>1</Day>" = true)
    ∧ (∀ (taskId executorArgs : String) (tr tr' : ScheduleTrigger),
        tr.time = tr'.time →
        registerPsScript taskId executorArgs tr =
          registerPsScript taskId executorArgs tr')
    ∧ (∀ (taskId executorPath absoluteTaskPath : String)
        (tr tr' : ScheduleTrigger), tr.time = tr'.time →
        generateTaskSchedulerCommand taskId executorPath absoluteTaskPath tr =
          generateTaskSchedulerCommand taskId executorPath absoluteTaskPath tr') := by
  refine ⟨?_, ?_, ?_⟩
  · intro t
    have hx : generateTriggerXml { type := .monthly, time := t } =
        ("\n      <CalendarTrigger>\n        <StartBoundary>2026-01-01T" ++
          t.getD "") ++
        ":00</StartBoundary>\n        <Enabled>true</Enabled>\n        <ScheduleByMonth>\n          <DaysOfMonth>\n            <Day>1</Day>\n          </DaysOfMonth>\n          <Months>\n            <January /><February /><March /><April /><May /><June />\n            <July /><August /><September /><October /><November /><December />\n          </Months>\n        </ScheduleByMonth>\n      </CalendarTrigger>" := rfl
    rw [hx]
    simp only [jsIncludes, String.data_append, decide_eq_true_eq]
    refine sub_append_left _ ?_
    decide
  · intro taskId executorArgs tr tr' h
    simp [registerPsScript, h]
  · intro taskId executorPath absoluteTaskPath tr tr' h
    simp [generateTaskSchedulerCommand, h]

/-- Witness for C7's amended theorem: the time-only dependence applied to the
concrete monthly and daily triggers at 09:00. -/
theorem monthly_day_one_xml_unused_witness :
    registerPsScript "t9" "args"
      { type := ScheduleType.monthly, time := some "09:00" } =
    registerPsScript "t9" "args"
      { type := ScheduleType.daily, time := some "09:00" } :=
  monthly_day_one_xml_unused.2.1 "t9" "args"
    { type := ScheduleType.monthly, time := some "09:00" }
    { type := ScheduleType.daily, time := some "09:00" } rfl

/-- C8: an API-mode execution with no credential in the environment issues no
network request: `executeViaAPI` fails before the `fetch`, appending a step
carrying the credential-missing error, and `executeTask` finalizes the
execution with status failure. -/
theorem api_without_credential_fails_fast :
    (∀ (ts : String) (log : TaskLog) (outcome : ApiOutcome),
      executeViaAPI ts log none outcome =
        { result := { success := false, output := ""
                      error := some "ANTHROPIC_API_KEY environment variable not set" }
          log := { log with steps := log.steps ++
            [{ timestamp := ts, action := "Starting API execution" },
             { timestamp := ts, action := "API execution failed"
               error := some "ANTHROPIC_API_KEY environment variable not set" }] }
          networkCalls := 0 })
    ∧ (∀ (hmac : String → String → String)
        (key ts execId tempFile claudeCommand content : String)
        (idv schedv : Option String) (notifv : Option Notifications)
        (cliOutcome : CliOutcome) (apiOutcome : ApiOutcome),
        (executeTask hmac key ts execId tempFile claudeCommand
            (.ok { data := { id := idv, schedule := schedv
                             invocation := some "api"
                             notifications := notifv, enabled := none }
                   content := content })
            cliOutcome none apiOutcome).networkCalls = 0
        ∧ (executeTask hmac key ts execId tempFile claudeCommand
            (.ok { data := { id := idv, schedule := schedv
                             invocation := some "api"
                             notifications := notifv, enabled := none }
                   content := content })
            cliOutcome none apiOutcome).spawnedCli = false
        ∧ ((executeTask hmac key ts execId tempFile claudeCommand
            (.ok { data := { id := idv, schedule := schedv
                             invocation := some "api"
                             notifications := notifv, enabled := none }
                   content := content })
            cliOutcome none apiOutcome).finalLog.map fun l => l.status) =
          some .failure
        ∧ ((executeTask hmac key ts execId tempFile claudeCommand
            (.ok { data := { id := idv, schedule := schedv
                             invocation := some "api"
                             notifications := notifv, enabled := none }
                   content := content })
            cliOutcome none apiOutcome).finalLog.map fun l =>
              l.steps.map fun s => (s.action, s.error)) =
          some [("Task execution started", none),
                ("Starting API execution", none),
                ("API execution failed",
                  some "ANTHROPIC_API_KEY environment variable not set")]) := by
  constructor
  · intro ts log outcome
    simp [executeViaAPI, addLogStep]
  · intro hmac key ts execId tempFile claudeCommand content idv schedv notifv
      cliOutcome apiOutcome
    refine ⟨rfl, rfl, rfl, rfl⟩

/-- Length of a hex encoding: two characters per byte. -/
theorem hexEncode_length (bs : List (Fin 256)) :
    (hexEncode bs).length = 2 * bs.length := by
  induction bs with
  | nil => rfl
  | cons b bs ih =>
      simp [hexEncode, String.length] at ih ⊢
      omega

/-- C9: on first call with no persisted configuration, `getSecretKey`
generates the key from the 32 random bytes (hex-encoded, hence 64
characters) and persists it before returning; any two calls without an
intervening deletion of the configuration return identical keys, regardless
of the random bytes offered to the second call. -/
theorem getSecretKey_generates_persists_idempotent :
    (∀ (rand : List (Fin 256)) (cwdTasks : String),
      (getSecretKey rand cwdTasks none).1 = hexEncode rand
      ∧ (getSecretKey rand cwdTasks none).2 =
          some { secretKey := hexEncode rand, version := some "0.1.0"
                 storageType := some "auto", tasksDir := some cwdTasks
                 storagePreferenceSet := some false })
    ∧ (∀ (rand : List (Fin 256)) (cwdTasks : String), rand.length = 32 →
        ((getSecretKey rand cwdTasks none).1).length = 64)
    ∧ (∀ (state : Option StoredConfig) (rand₁ rand₂ : List (Fin 256))
        (cwdTasks₁ cwdTasks₂ : String),
        (getSecretKey rand₂ cwdTasks₂ (getSecretKey rand₁ cwdTasks₁ state).2).1 =
          (getSecretKey rand₁ cwdTasks₁ state).1) := by
  refine ⟨fun rand cwd => ⟨rfl, rfl⟩, ?_, ?_⟩
  · intro rand cwd h
    have := hexEncode_length rand
    rw [h] at this
    exact this
  · intro state rand₁ rand₂ cwd₁ cwd₂
    cases state <;> rfl

/-- Witness for C9: 32 zero bytes yield a 64-character key on first call. -/
theorem getSecretKey_generates_persists_idempotent_witness :
    ((getSecretKey (List.replicate 32 (0 : Fin 256)) "/home/u/tasks" none).1).length = 64 :=
  getSecretKey_generates_persists_idempotent.2.1
    (List.replicate 32 (0 : Fin 256)) "/home/u/tasks" (by simp)

/-- C10: `parseTaskDefinition` substitutes defaults for omitted frontmatter
fields — id `"unknown"`, schedule `"0 0 * * *"`, invocation `"cli"`,
notifications `{toast: false}`, and enabled true — and `enabled` parses to
true whenever the frontmatter value is not literally `false`, so a task whose
enabled flag is missing or malformed (e.g. the string `"yes"`) is executed
rather than skipped. -/
theorem parseTaskDefinition_defaults_and_enabled
    (hmac : String → String → String)
    (key ts execId tempFile claudeCommand content : String) :
    parseTaskDefinition (.ok { data := {}, content := content }) =
      .ok { id := "unknown", schedule := "0 0 * * *", invocation := "cli"
            notifications := { toast := false }, enabled := true
            instructions := content }
    ∧ (∀ f : TaskFile, f.data.enabled ≠ some (YamlVal.bool false) →
        (parseTaskDefinition (.ok f)).map (fun t => t.enabled) = .ok true)
    ∧ ((executeTask hmac key ts execId tempFile claudeCommand
          (.ok { data := { enabled := some (YamlVal.str "yes") }
                 content := content })
          (.exits 0) none (.ok "out")).spawnedCli = true
       ∧ ((executeTask hmac key ts execId tempFile claudeCommand
            (.ok { data := { enabled := some (YamlVal.str "yes") }
                   content := content })
            (.exits 0) none (.ok "out")).finalLog.map fun l => l.status) =
          some .success
       ∧ ((executeTask hmac key ts execId tempFile claudeCommand
            (.ok { data := { enabled := some (YamlVal.str "yes") }
                   content := content })
            (.exits 0) none (.ok "out")).finalLog.map fun l =>
              l.steps.map fun s => s.action) =
          some ["Task execution started",
                "Starting interactive Claude session",
                "Created temporary task file",
                "Launching Claude CLI (visible window)",
                "Cleaned up temporary file",
                "Claude session completed successfully"]) := by
  refine ⟨rfl, ?_, rfl, rfl, rfl⟩
  intro f h
  simp only [parseTaskDefinition, Except.map]
  congr 1
  simp [bne_iff_ne, h]

/-- Witness for C10 at a concrete malformed-enabled frontmatter. -/
theorem parseTaskDefinition_defaults_and_enabled_witness :
    (parseTaskDefinition (.ok { data := { enabled := some YamlVal.other }
                                content := "body" })).map
        (fun t => t.enabled) = .ok true :=
  (parseTaskDefinition_defaults_and_enabled tHmac "k" "t0" "e0" "tmp"
      "claude-code" "body").2.1
    { data := { enabled := some YamlVal.other }, content := "body" }
    (by decide)

end CronClaude
